import Mathlib

/-!
# async-notify: a verification development of `src/async.cpp`

The program joins its arguments into a shell command, forks, runs the command
through `system()` in the detached child and then shows an ncurses popup with the
outcome.  This file embeds the sequential code of `async.cpp` and proves the
properties the specification states about it.

Conventions of the embedding

* A `std::string` / `char*` is a list of `char`s (`Str`); one list element stands
  for one C `char`, so `List.length` is `std::string::length()`.
* A C `int` is an `Int`.  Every `int` computed by the program stays far inside the
  32-bit range for the inputs considered (exit codes, signal numbers, screen
  sizes), so no wrap-around is modelled for `int`; the one place where a
  conversion changes a value, the cast of an `int` to `size_t`, is modelled
  explicitly modulo `2 ^ 64`.
* Calls into the operating system and into ncurses are recorded as a trace of
  events; the values the environment hands back (the result of `fork()`, the
  wait status of `system()`, the screen size, `has_colors()`) are inputs.
-/

namespace AsyncNotify

/-! ## Strings -/

/-- A C++ string: the list of its `char`s. -/
abbrev Str := List Char

/-- The space character, as in `arg.find(' ')`. -/
def space : Char := Char.ofNat 32

/-- The double-quote character of the literal `"\""`. -/
def dquote : Char := Char.ofNat 34

/-! ## Shared state (`struct CommandState`, lines 14-20)

The mutex and the condition variable carry no data and are not fields of the
model. -/

/-- The data fields of `struct CommandState` with their default initialisers. -/
structure CommandState where
  completed : Bool := false
  exit_code : Int := -1
  command : Str := []
deriving DecidableEq, Repr

/-! ## Command Builder (the loop of `main`, lines 153-165) -/

/-- The body of `for (int i = 1; i < argc; i++)`: `rest` is `argv[i..argc-1]`,
`command` the string built so far. -/
def buildCommand.loop : Nat → List Str → Str → Str
  | _, [], command => command
  | i, arg :: rest, command =>
    let command := if i > 1 then command ++ [space] else command
    let command :=
      if space ∈ arg then command ++ ([dquote] ++ arg ++ [dquote])
      else command ++ arg
    buildCommand.loop (i + 1) rest command

/-- The command string `main` builds from `argv[1..argc-1]`. -/
def buildCommand (args : List Str) : Str :=
  buildCommand.loop 1 args []

/-- The specification's wording of a token: wrapped in one pair of double quotes
when it contains a space, verbatim otherwise. -/
def quoteToken (arg : Str) : Str :=
  if space ∈ arg then [dquote] ++ arg ++ [dquote] else arg

/-- The specification's wording of the join: tokens separated by single spaces,
in their original order. -/
def joinWithSpaces : List Str → Str
  | [] => []
  | [t] => t
  | t :: u :: rest => t ++ [space] ++ joinWithSpaces (u :: rest)

/-! ## Machine integers

`status & mask`, `|`, `<<` and `>>` act on 32-bit two's-complement `int`s.  The
bitwise operators go through the unsigned 32-bit pattern of their operands. -/

/-- The 32-bit pattern of an `int`, as a natural number below `2 ^ 32`. -/
def toU32 (a : Int) : Nat := (a % 4294967296).toNat

/-- The `int` a 32-bit pattern stands for. -/
def toInt32 (n : Nat) : Int :=
  if n < 2147483648 then (n : Int) else (n : Int) - 4294967296

/-- C `a & b` on `int`. -/
def cAnd (a b : Int) : Int := toInt32 (Nat.land (toU32 a) (toU32 b))

/-- C `a | b` on `int`. -/
def cOr (a b : Int) : Int := toInt32 (Nat.lor (toU32 a) (toU32 b))

/-- C `a >> k` on `int` (arithmetic shift: rounds towards minus infinity). -/
def cShr (a : Int) (k : Nat) : Int := a / ((2 ^ k : Nat) : Int)

/-- C `a << k` on a non-negative `int` whose result fits. -/
def cShl (a : Int) (k : Nat) : Int := a * ((2 ^ k : Nat) : Int)

/-- C `(signed char) x`: the low eight bits of `x`, read as a signed byte. -/
def toSignedChar (x : Int) : Int := (x + 128) % 256 - 128

/-- C `(size_t) i` for an `int` `i` on a 64-bit platform: `i` modulo `2 ^ 64`. -/
def toSizeT (i : Int) : Nat := (i % 18446744073709551616).toNat

/-! ## Wait-status macros of `<sys/wait.h>`

`executeCommand` classifies the value of `system()` with `WIFEXITED`,
`WEXITSTATUS`, `WIFSIGNALED` and `WTERMSIG`.  The macros come from the platform
header, not from the repository; they are written here as the C library of the
platform defines them (`bits/waitstatus.h`): the exit code sits in bits 8-15,
the signal number in bits 0-6 and the core-dump flag is `0x80`. -/

/-- Modelled from the spec: macro `WTERMSIG` of `<sys/wait.h>` is not in the
repository; `((status) & 0x7f)`, the signal number of a signal termination. -/
def WTERMSIG (status : Int) : Int := cAnd status 0x7f

/-- Modelled from the spec: macro `WEXITSTATUS` of `<sys/wait.h>` is not in the
repository; `(((status) & 0xff00) >> 8)`, the exit status (0-255) of a normal exit. -/
def WEXITSTATUS (status : Int) : Int := cShr (cAnd status 0xff00) 8

/-- Modelled from the spec: macro `WIFEXITED` of `<sys/wait.h>` is not in the
repository; `(WTERMSIG(status) == 0)`, the process exited normally. -/
def WIFEXITED (status : Int) : Bool := WTERMSIG status == 0

/-- Modelled from the spec: macro `WIFSIGNALED` of `<sys/wait.h>` is not in the
repository; `(((signed char) (((status) & 0x7f) + 1) >> 1) > 0)`, the process was
terminated by a signal. -/
def WIFSIGNALED (status : Int) : Bool :=
  decide (cShr (toSignedChar (cAnd status 0x7f + 1)) 1 > 0)

/-- Modelled from the spec: macro `W_EXITCODE` of `<sys/wait.h>` is not in the
repository; `((ret) << 8 | (sig))`, the wait status of a process that returned
`ret` or was killed by signal `sig`. -/
def W_EXITCODE (ret sig : Int) : Int := cOr (cShl ret 8) sig

/-- Modelled from the spec: macro `WCOREFLAG` of `<sys/wait.h>` is not in the
repository; `0x80`, set in the wait status when the process dumped core. -/
def WCOREFLAG : Int := 0x80

/-- The wait status of a normal exit with code `N`. -/
def exitedStatus (N : Int) : Int := W_EXITCODE N 0

/-- The wait status of a termination by signal `S`, with or without the
core-dump flag. -/
def signaledStatus (S : Int) (core : Bool) : Int :=
  cOr (W_EXITCODE 0 S) (if core then WCOREFLAG else 0)

/-! ## Executor (`executeCommand`, lines 23-42) -/

/-- The local `exit_code` of `executeCommand` after lines 28-33, for the value
`status` that `system()` returned. -/
def classifyStatus (status : Int) : Int :=
  let exit_code : Int := -1
  if WIFEXITED status then WEXITSTATUS status
  else if WIFSIGNALED status then 128 + WTERMSIG status
  else exit_code

/-- The shared state after `executeCommand`, where `status` is the value
`system(state->command.c_str())` returned: lines 36-40 store the classified exit
code and set `completed`. -/
def executeCommand (state : CommandState) (status : Int) : CommandState :=
  let exit_code := classifyStatus status
  { state with exit_code := exit_code, completed := true }

/-! ## Events

What the program does to the outside world, in program order. -/

/-- Colours of `<ncurses.h>` named by the program. -/
inductive Color where
  | COLOR_BLACK | COLOR_RED | COLOR_GREEN | COLOR_YELLOW
deriving DecidableEq, Repr

/-- Attribute bits of `<ncurses.h>` named by the program; `a | b` is the list
`[a, b]`. -/
inductive Attr where
  | COLOR_PAIR (n : Int)
  | A_BOLD
  | A_DIM
deriving DecidableEq, Repr

/-- One call that leaves the program. -/
inductive Event where
  | cerr (line : Str)
  | cout (line : Str)
  | fork
  | setsid
  | system (command : Str)
  | sleep_for_ms (ms : Nat)
  | initscr | cbreak | noecho
  | curs_set (visibility : Int)
  | start_color
  | init_pair (pair : Int) (fg bg : Color)
  | newwin (nlines ncols begin_y begin_x : Int)
  | box
  | wattron (attrs : List Attr)
  | wattroff (attrs : List Attr)
  | mvwprintw (y x : Int) (text : Str)
  | wrefresh
  | nodelay (bf : Bool)
  | wgetch
  | delwin
  | endwin
deriving DecidableEq, Repr

/-! ## Notifier (`monitorAndNotify`, lines 45-130) -/

/-- The four arguments of `newwin`. -/
structure Geometry where
  win_height : Int
  win_width : Int
  start_y : Int
  start_x : Int
deriving DecidableEq, Repr

/-- Lines 74-83: the popup's size and position on a screen of `max_y` rows and
`max_x` columns.  C's `/` on `int` truncates towards zero. -/
def popupGeometry (max_y max_x : Int) : Geometry :=
  let win_height : Int := 9
  let win_width : Int := 60
  let start_y := Int.tdiv (max_y - win_height) 2
  let start_x := Int.tdiv (max_x - win_width) 2
  let win_width := if win_width > max_x - 2 then max_x - 2 else win_width
  let win_height := if win_height > max_y - 2 then max_y - 2 else win_height
  let start_x := if start_x < 1 then 1 else start_x
  let start_y := if start_y < 1 then 1 else start_y
  { win_height := win_height, win_width := win_width, start_y := start_y, start_x := start_x }

/-- The result of `s.substr(0, count)`: position 0 never exceeds the size, so
nothing is thrown, and `count` is clipped to the size. -/
def substr0 (s : Str) (count : Nat) : Str := s.take count

/-- Lines 108-112: the command text as it is printed in a window `win_width`
columns wide. -/
def displayCommand (command : Str) (win_width : Int) : Str :=
  let max_cmd_len := win_width - 4
  if command.length > toSizeT max_cmd_len then
    substr0 command (toSizeT (max_cmd_len - 3)) ++ "...".toList
  else command

/-- The text `printf`'s `%d` produces for an `int`. -/
def fmtInt (i : Int) : Str := (toString i).toList

/-- The title printed for a successful command (line 97). -/
def titleCompleted : Str := "✓ COMMAND COMPLETED".toList

/-- The title printed for a failed command (line 97). -/
def titleFailed : Str := "✗ COMMAND FAILED".toList

/-- Lines 52-129: what `monitorAndNotify` does once its wait has returned, on a
terminal where `has_colors()` is `has_colors` and `getmaxyx` yields `max_y` and
`max_x`. -/
def notifyTrace (state : CommandState) (has_colors : Bool) (max_y max_x : Int) :
    List Event :=
  let g := popupGeometry max_y max_x
  let success : Bool := state.exit_code == 0
  let pair : Int := if success then 1 else 2
  let titleAttrs : List Attr :=
    if has_colors then [Attr.COLOR_PAIR pair, Attr.A_BOLD] else [Attr.A_BOLD]
  [Event.sleep_for_ms 100, Event.initscr, Event.cbreak, Event.noecho, Event.curs_set 0]
    ++ (if has_colors then
          [Event.start_color,
           Event.init_pair 1 Color.COLOR_GREEN Color.COLOR_BLACK,
           Event.init_pair 2 Color.COLOR_RED Color.COLOR_BLACK,
           Event.init_pair 3 Color.COLOR_YELLOW Color.COLOR_BLACK]
        else [])
    ++ [Event.newwin g.win_height g.win_width g.start_y g.start_x,
        Event.box,
        Event.wattron titleAttrs,
        Event.mvwprintw 1 2 (if success then titleCompleted else titleFailed),
        Event.wattroff titleAttrs,
        Event.mvwprintw 3 2 "Command:".toList,
        Event.mvwprintw 4 2 (displayCommand state.command g.win_width),
        Event.mvwprintw 5 2 ("Exit Code: ".toList ++ fmtInt state.exit_code),
        Event.wattron [Attr.A_DIM],
        Event.mvwprintw 7 2 "Press any key to dismiss...".toList,
        Event.wattroff [Attr.A_DIM],
        Event.wrefresh,
        Event.nodelay false,
        Event.wgetch,
        Event.delwin,
        Event.endwin]

/-- A piece of text on the popup: the attributes switched on when it was printed,
and its row and column in the window. -/
structure Drawn where
  attrs : List Attr
  y : Int
  x : Int
  text : Str
deriving DecidableEq, Repr

/-- The texts a trace prints, each with the attributes that are on at that
moment: `wattron` switches the named attributes on, `wattroff` switches them
off. -/
def drawn : List Event → List Attr → List Drawn
  | [], _ => []
  | Event.wattron a :: es, cur => drawn es (cur ++ a)
  | Event.wattroff a :: es, cur => drawn es (cur.filter (fun b => decide (b ∉ a)))
  | Event.mvwprintw y x text :: es, cur => { attrs := cur, y := y, x := x, text := text } :: drawn es cur
  | _ :: es, cur => drawn es cur

/-- The texts of the popup for a completed state. -/
def popupTexts (state : CommandState) (has_colors : Bool) (max_y max_x : Int) : List Drawn :=
  drawn (notifyTrace state has_colors max_y max_x) []

/-- The text printed on row `row` of the popup, when there is one. -/
def textAtRow (ds : List Drawn) (row : Int) : Option Drawn :=
  ds.find? (fun d => d.y == row)

/-! ## Launcher (`printUsage`, lines 133-144, and `main`, lines 146-203) -/

/-- After the first iteration every token is appended behind one space. -/
theorem buildCommand.loop_tail (rest : List Str) :
    ∀ (i : Nat) (command : Str), 1 < i →
      buildCommand.loop i rest command
        = command ++ (rest.map (fun a => space :: quoteToken a)).flatten := by
  induction rest with
  | nil => intro i command _; simp [buildCommand.loop]
  | cons arg rest ih =>
    intro i command hi
    have hi1 : 1 < i + 1 := by omega
    by_cases hs : space ∈ arg
    · simp [buildCommand.loop, hi, hs, ih _ _ hi1, quoteToken]
    · simp [buildCommand.loop, hi, hs, ih _ _ hi1, quoteToken]

/-- The join of the specification, unfolded at a non-empty list. -/
theorem joinWithSpaces_cons (t : Str) (rest : List Str) :
    joinWithSpaces (t :: rest) = t ++ (rest.map (fun a => space :: a)).flatten := by
  induction rest generalizing t with
  | nil => simp [joinWithSpaces]
  | cons u rest ih => simp [joinWithSpaces, ih u]

/-- A token without a space is its own quoted form. -/
theorem quoteToken_of_no_space {arg : Str} (h : space ∉ arg) : quoteToken arg = arg := by
  simp [quoteToken, h]

/-- C1: the command built by the loop of `main` is the tokens joined by single
spaces in their original order, each token containing a space wrapped in one pair
of double quotes and every other token verbatim; when no token contains a space it
is exactly the tokens joined by single spaces. -/
theorem buildCommand_eq_join (args : List Str) :
    buildCommand args = joinWithSpaces (args.map quoteToken) ∧
      ((∀ a ∈ args, space ∉ a) → buildCommand args = joinWithSpaces args) := by
  have hjoin : buildCommand args = joinWithSpaces (args.map quoteToken) := by
    cases args with
    | nil => rfl
    | cons arg rest =>
      have h2 : 1 < 1 + 1 := by omega
      rw [List.map_cons, joinWithSpaces_cons]
      by_cases hs : space ∈ arg
      · simp [buildCommand, buildCommand.loop, hs, buildCommand.loop_tail _ _ _ h2,
          quoteToken, List.map_map, Function.comp_def]
      · simp [buildCommand, buildCommand.loop, hs, buildCommand.loop_tail _ _ _ h2,
          quoteToken, List.map_map, Function.comp_def]
  refine ⟨hjoin, fun hno => ?_⟩
  rw [hjoin]
  congr 1
  calc args.map quoteToken = args.map id :=
        List.map_congr_left (fun a ha => quoteToken_of_no_space (hno a ha))
    _ = args := List.map_id args

/-- C1 at `argv = {prog, "echo", "hello world", "x"}` and at `{prog, "make", "-j4"}`. -/
theorem buildCommand_eq_join_witness :
    buildCommand ["echo".toList, "hello world".toList, "x".toList]
        = "echo \"hello world\" x".toList ∧
      buildCommand ["make".toList, "-j4".toList] = "make -j4".toList := by
  refine ⟨?_, ?_⟩
  · rw [(buildCommand_eq_join _).1]; decide
  · rw [(buildCommand_eq_join _).2 (by decide)]; decide

/-! ### Executor -/

/-- Decoding the wait status of a normal exit gives the exit code back. -/
theorem classifyStatus_exited (N : Int) (h0 : 0 ≤ N) (h1 : N ≤ 255) :
    WIFEXITED (exitedStatus N) = true ∧ WEXITSTATUS (exitedStatus N) = N ∧
      classifyStatus (exitedStatus N) = N := by
  interval_cases N <;> decide

/-- Decoding the wait status of a signal termination gives `128 + S`. -/
theorem classifyStatus_signaled (S : Int) (core : Bool) (h1 : 1 ≤ S) (h2 : S ≤ 126) :
    WIFEXITED (signaledStatus S core) = false ∧
      WIFSIGNALED (signaledStatus S core) = true ∧
      WTERMSIG (signaledStatus S core) = S ∧
      classifyStatus (signaledStatus S core) = 128 + S := by
  cases core <;> interval_cases S <;> decide

/-- Masking an `int` with a non-negative constant gives a value between 0 and the
mask. -/
theorem cAnd_mask_range (a : Int) (m : Nat) (hm : m < 2147483648) :
    0 ≤ cAnd a (m : Int) ∧ cAnd a (m : Int) ≤ (m : Int) := by
  have hu : toU32 (m : Int) = m := by
    unfold toU32
    have h1 : ((m : Int) % 4294967296) = (m : Int) :=
      Int.emod_eq_of_lt (by omega) (by omega)
    rw [h1]
    exact Int.toNat_ofNat m
  have hle : Nat.land (toU32 a) m ≤ m := Nat.and_le_right
  unfold cAnd toInt32
  rw [hu, if_pos (by omega)]
  omega

/-- The signal field of any wait status is between 0 and 127. -/
theorem WTERMSIG_range (status : Int) : 0 ≤ WTERMSIG status ∧ WTERMSIG status ≤ 127 :=
  cAnd_mask_range status 127 (by decide)

/-- The exit-status field of any wait status is between 0 and 255. -/
theorem WEXITSTATUS_range (status : Int) :
    0 ≤ WEXITSTATUS status ∧ WEXITSTATUS status ≤ 255 := by
  have h := cAnd_mask_range status 65280 (by decide)
  have e : cAnd status 0xff00 = cAnd status ((65280 : Nat) : Int) := rfl
  unfold WEXITSTATUS cShr
  rw [e]
  have h2 : (((2 ^ 8 : Nat)) : Int) = 256 := by decide
  rw [h2]
  omega

/-- A wait status is a signal termination exactly when its signal field is one of
1..126 (0 is a normal exit, 127 a stopped or continued child). -/
theorem WIFSIGNALED_iff (status : Int) :
    WIFSIGNALED status = true ↔ 1 ≤ WTERMSIG status ∧ WTERMSIG status ≤ 126 := by
  have h := WTERMSIG_range status
  unfold WIFSIGNALED
  have e : cAnd status 0x7f = WTERMSIG status := rfl
  rw [e]
  unfold cShr toSignedChar
  have h2 : (((2 ^ 1 : Nat)) : Int) = 2 := by decide
  rw [h2, decide_eq_true_iff]
  omega

/-- A signal termination is not a normal exit. -/
theorem WIFEXITED_of_signaled (status : Int) (h : WIFSIGNALED status = true) :
    WIFEXITED status = false := by
  have hs := (WIFSIGNALED_iff status).1 h
  have hne : WTERMSIG status ≠ 0 := by omega
  simp [WIFEXITED, hne]

/-- Whatever `system()` returns, the classified exit code is the sentinel -1 or a
value in 0..255. -/
theorem classifyStatus_range (status : Int) :
    -1 ≤ classifyStatus status ∧ classifyStatus status ≤ 255 := by
  have he := WEXITSTATUS_range status
  have ht := WTERMSIG_range status
  unfold classifyStatus
  by_cases h1 : WIFEXITED status = true
  · simp only [h1, if_true]; omega
  · by_cases h2 : WIFSIGNALED status = true
    · have hs := (WIFSIGNALED_iff status).1 h2
      simp only [h1, h2, if_true]
      simp only [Bool.false_eq_true, if_false]
      omega
    · simp [h1, h2]

/-- The Executor stores the classified status, sets `completed` and leaves the
command untouched. -/
theorem executeCommand_fields (state : CommandState) (status : Int) :
    (executeCommand state status).exit_code = classifyStatus status ∧
      (executeCommand state status).completed = true ∧
      (executeCommand state status).command = state.command :=
  ⟨rfl, rfl, rfl⟩

/-- C2: for every `N` with `0 ≤ N ≤ 255`, when the wait status returned by
`system()` encodes a normal exit with code `N`, the `exit_code` recorded in the
shared state is `N` and `completed` is set to true; more generally the recorded
code of any status that `WIFEXITED` accepts is its `WEXITSTATUS`, a value in
0..255. -/
theorem executeCommand_normal_exit (state : CommandState) (N : Int)
    (h0 : 0 ≤ N) (h1 : N ≤ 255) :
    WIFEXITED (exitedStatus N) = true ∧
      (executeCommand state (exitedStatus N)).exit_code = N ∧
      (executeCommand state (exitedStatus N)).completed = true ∧
      (∀ status : Int, WIFEXITED status = true →
        (executeCommand state status).exit_code = WEXITSTATUS status ∧
          0 ≤ WEXITSTATUS status ∧ WEXITSTATUS status ≤ 255) := by
  obtain ⟨hx, _, hc⟩ := classifyStatus_exited N h0 h1
  refine ⟨hx, hc, rfl, fun status hs => ⟨?_, WEXITSTATUS_range status⟩⟩
  simp [executeCommand, classifyStatus, hs]

/-- C2 at `N = 1`: the wait status `0x0100` is recorded as exit code 1. -/
theorem executeCommand_normal_exit_witness :
    (executeCommand { command := "false".toList } 256).exit_code = 1 ∧
      (executeCommand { command := "false".toList } 256).completed = true :=
  have h := executeCommand_normal_exit { command := "false".toList } 1 (by decide) (by decide)
  ⟨h.2.1, h.2.2.1⟩

/-- C3: for every signal number `S` with `1 ≤ S ≤ 126`, with or without the
core-dump flag, the wait status is a signal termination and the recorded
`exit_code` is `128 + S`; it is neither 0 nor the sentinel -1.  Conversely every
status that `WIFSIGNALED` accepts carries a signal number in 1..126 and is recorded
as 128 plus that number. -/
theorem executeCommand_signal (state : CommandState) (S : Int) (core : Bool)
    (h1 : 1 ≤ S) (h2 : S ≤ 126) :
    WIFEXITED (signaledStatus S core) = false ∧
      WIFSIGNALED (signaledStatus S core) = true ∧
      (executeCommand state (signaledStatus S core)).exit_code = 128 + S ∧
      (executeCommand state (signaledStatus S core)).exit_code ≠ 0 ∧
      (executeCommand state (signaledStatus S core)).exit_code ≠ -1 ∧
      (∀ status : Int, WIFSIGNALED status = true →
        (executeCommand state status).exit_code = 128 + WTERMSIG status ∧
          1 ≤ WTERMSIG status ∧ WTERMSIG status ≤ 126) := by
  obtain ⟨hx, hs, _, hc⟩ := classifyStatus_signaled S core h1 h2
  have he : (executeCommand state (signaledStatus S core)).exit_code = 128 + S := hc
  refine ⟨hx, hs, he, by rw [he]; omega, by rw [he]; omega, fun status hsig => ?_⟩
  refine ⟨?_, (WIFSIGNALED_iff status).1 hsig⟩
  simp [executeCommand, classifyStatus, WIFEXITED_of_signaled status hsig, hsig]

/-- C3 at `SIGKILL` (9) without core dump and `SIGSEGV` (11) with core dump: the
statuses `0x09` and `0x8b` are recorded as 137 and 139. -/
theorem executeCommand_signal_witness :
    (executeCommand { command := "sleep 10".toList } 9).exit_code = 137 ∧
      (executeCommand { command := "sleep 10".toList } 139).exit_code = 139 :=
  ⟨(executeCommand_signal { command := "sleep 10".toList } 9 false
      (by decide) (by decide)).2.2.1,
   (executeCommand_signal { command := "sleep 10".toList } 11 true
      (by decide) (by decide)).2.2.1⟩

/-- C4: when `system()` returns -1, or any wait status that is neither a normal
exit nor a signal termination, the recorded `exit_code` is the sentinel -1 and
`completed` is still set to true. -/
theorem executeCommand_failure (state : CommandState) (status : Int)
    (h : status = -1 ∨ (WIFEXITED status = false ∧ WIFSIGNALED status = false)) :
    (executeCommand state status).exit_code = -1 ∧
      (executeCommand state status).completed = true := by
  have hn : WIFEXITED status = false ∧ WIFSIGNALED status = false := by
    rcases h with h | h
    · subst h; decide
    · exact h
  refine ⟨?_, rfl⟩
  simp [executeCommand, classifyStatus, hn.1, hn.2]

/-- C4 at the status -1 that `system()` returns when no child could be created,
and at the status `0x137f` of a stopped child. -/
theorem executeCommand_failure_witness :
    (executeCommand { command := "make".toList } (-1)).exit_code = -1 ∧
      (executeCommand { command := "make".toList } (-1)).completed = true ∧
      (executeCommand { command := "make".toList } 4991).exit_code = -1 :=
  have h := executeCommand_failure { command := "make".toList } (-1) (Or.inl rfl)
  ⟨h.1, h.2,
   (executeCommand_failure { command := "make".toList } 4991
      (Or.inr (by decide))).1⟩

/-! ### Notifier: geometry -/

/-- C's truncating division by two of a negative `int` is not positive. -/
theorem tdiv_two_of_neg (a : Int) (h0 : a < 0) : Int.tdiv a 2 ≤ 0 := by
  have h : Int.tdiv a 2 = -(Int.tdiv (-a) 2) := by
    rw [Int.neg_tdiv, neg_neg]
  have hp : 0 ≤ Int.tdiv (-a) 2 := Int.tdiv_nonneg (by omega) (by decide)
  omega

/-- The centred start coordinate `(max - size) / 2`, clamped to at least 1, and the
clamped size `min size (max - 2)` leave one free cell on both sides. -/
theorem clamp_margin (max size : Int) :
    1 ≤ (if Int.tdiv (max - size) 2 < 1 then 1 else Int.tdiv (max - size) 2) ∧
      (if Int.tdiv (max - size) 2 < 1 then 1 else Int.tdiv (max - size) 2)
        + (if size > max - 2 then max - 2 else size) ≤ max - 1 := by
  rcases lt_or_le (max - size) 0 with hneg | hpos
  · have := tdiv_two_of_neg (max - size) hneg
    split_ifs <;> omega
  · have he : Int.tdiv (max - size) 2 = (max - size) / 2 :=
      Int.tdiv_eq_ediv hpos (by decide)
    rw [he]
    split_ifs <;> omega

/-- The window is created with the computed geometry. -/
theorem newwin_mem_notifyTrace (state : CommandState) (has_colors : Bool)
    (max_y max_x : Int) :
    Event.newwin (popupGeometry max_y max_x).win_height (popupGeometry max_y max_x).win_width
        (popupGeometry max_y max_x).start_y (popupGeometry max_y max_x).start_x
      ∈ notifyTrace state has_colors max_y max_x := by
  simp [notifyTrace]

/-- C7: for every terminal size (`max_y` rows, `max_x` columns) the window passed
to `newwin` has width at most 60 and height at most 9, starts at row and column at
least 1, and keeps a one-cell margin at the right and bottom edges:
`start_x + win_width ≤ max_x - 1` and `start_y + win_height ≤ max_y - 1`. -/
theorem popupGeometry_fits (state : CommandState) (has_colors : Bool) (max_y max_x : Int) :
    Event.newwin (popupGeometry max_y max_x).win_height (popupGeometry max_y max_x).win_width
        (popupGeometry max_y max_x).start_y (popupGeometry max_y max_x).start_x
      ∈ notifyTrace state has_colors max_y max_x ∧
    (popupGeometry max_y max_x).win_width ≤ 60 ∧
    (popupGeometry max_y max_x).win_height ≤ 9 ∧
    1 ≤ (popupGeometry max_y max_x).start_y ∧
    1 ≤ (popupGeometry max_y max_x).start_x ∧
    (popupGeometry max_y max_x).start_x + (popupGeometry max_y max_x).win_width ≤ max_x - 1 ∧
    (popupGeometry max_y max_x).start_y + (popupGeometry max_y max_x).win_height
      ≤ max_y - 1 := by
  have hx := clamp_margin max_x 60
  have hy := clamp_margin max_y 9
  refine ⟨newwin_mem_notifyTrace state has_colors max_y max_x, ?_, ?_, hy.1, hx.1, hx.2, hy.2⟩
  · show (if (60 : Int) > max_x - 2 then max_x - 2 else 60) ≤ 60
    split_ifs <;> omega
  · show (if (9 : Int) > max_y - 2 then max_y - 2 else 9) ≤ 9
    split_ifs <;> omega

/-! ### Notifier: popup content -/

/-- The five texts of the popup, in the order they are printed. -/
theorem popupTexts_eq (state : CommandState) (has_colors : Bool) (max_y max_x : Int) :
    popupTexts state has_colors max_y max_x =
      [{ attrs := if has_colors then
                    [Attr.COLOR_PAIR (if state.exit_code = 0 then 1 else 2), Attr.A_BOLD]
                  else [Attr.A_BOLD],
         y := 1, x := 2,
         text := if state.exit_code = 0 then titleCompleted else titleFailed },
       { attrs := [], y := 3, x := 2, text := "Command:".toList },
       { attrs := [], y := 4, x := 2,
         text := displayCommand state.command (popupGeometry max_y max_x).win_width },
       { attrs := [], y := 5, x := 2, text := "Exit Code: ".toList ++ fmtInt state.exit_code },
       { attrs := [Attr.A_DIM], y := 7, x := 2,
         text := "Press any key to dismiss...".toList }] := by
  cases has_colors <;> by_cases h : state.exit_code = 0 <;>
    simp [popupTexts, notifyTrace, drawn, h]

/-- C5, as the claim states it, fails on a terminal without colours: for the
recorded exit code 1 the title "COMMAND FAILED" is printed bold only, with no
colour pair switched on. -/
theorem title_without_colors :
    (executeCommand { command := "false".toList } (exitedStatus 1)).exit_code = 1 ∧
      textAtRow (popupTexts (executeCommand { command := "false".toList } (exitedStatus 1))
          false 24 80) 1
        = some { attrs := [Attr.A_BOLD], y := 1, x := 2, text := titleFailed } ∧
      Attr.COLOR_PAIR 2 ∉ [Attr.A_BOLD] := by
  decide

/-- C5 (amended): for every recorded `exit_code` the title is the text
"COMMAND COMPLETED" (behind its check mark) if and only if `exit_code == 0` and
"COMMAND FAILED" (behind its cross) for every other value; where `has_colors()`
holds it is styled with colour pair 1, initialised green, plus bold in the first
case and with pair 2, initialised red, plus bold in the second, and where it does
not hold the title is bold with no colour pair; the "Exit Code" line prints exactly
the recorded `exit_code`. -/
theorem title_and_exit_code (state : CommandState) (has_colors : Bool) (max_y max_x : Int) :
    textAtRow (popupTexts state has_colors max_y max_x) 1
        = some { attrs := if has_colors then
                            [Attr.COLOR_PAIR (if state.exit_code = 0 then 1 else 2), Attr.A_BOLD]
                          else [Attr.A_BOLD],
                 y := 1, x := 2,
                 text := if state.exit_code = 0 then titleCompleted else titleFailed } ∧
      ((textAtRow (popupTexts state has_colors max_y max_x) 1).map Drawn.text
          = some titleCompleted ↔ state.exit_code = 0) ∧
      (has_colors = true →
        Event.init_pair 1 Color.COLOR_GREEN Color.COLOR_BLACK
            ∈ notifyTrace state has_colors max_y max_x ∧
          Event.init_pair 2 Color.COLOR_RED Color.COLOR_BLACK
            ∈ notifyTrace state has_colors max_y max_x) ∧
      textAtRow (popupTexts state has_colors max_y max_x) 5
        = some { attrs := [], y := 5, x := 2,
                 text := "Exit Code: ".toList ++ fmtInt state.exit_code } := by
  have hne : titleFailed ≠ titleCompleted := by decide
  rw [popupTexts_eq]
  refine ⟨by simp [textAtRow], ?_, ?_, by simp [textAtRow]⟩
  · by_cases h : state.exit_code = 0 <;> simp [textAtRow, h, hne]
  · intro hc
    subst hc
    simp [notifyTrace]

/-- C5 (amended) on a colour terminal at the exit codes 0, 1, the sentinel -1 and
137: green "COMMAND COMPLETED" for 0 only, and the sentinel is printed as "-1". -/
theorem title_and_exit_code_witness :
    (textAtRow (popupTexts { exit_code := 0, completed := true } true 24 80) 1).map Drawn.attrs
        = some [Attr.COLOR_PAIR 1, Attr.A_BOLD] ∧
      (textAtRow (popupTexts { exit_code := 1, completed := true } true 24 80) 1).map Drawn.attrs
        = some [Attr.COLOR_PAIR 2, Attr.A_BOLD] ∧
      (textAtRow (popupTexts { exit_code := 137, completed := true } true 24 80) 1).map Drawn.text
        = some titleFailed ∧
      (textAtRow (popupTexts { exit_code := -1, completed := true } true 24 80) 5).map Drawn.text
        = some "Exit Code: -1".toList := by
  refine ⟨?_, ?_, ?_, ?_⟩
  · rw [(title_and_exit_code { exit_code := 0, completed := true } true 24 80).1]; decide
  · rw [(title_and_exit_code { exit_code := 1, completed := true } true 24 80).1]; decide
  · rw [(title_and_exit_code { exit_code := 137, completed := true } true 24 80).1]; decide
  · rw [(title_and_exit_code { exit_code := -1, completed := true } true 24 80).2.2.2]; decide

/-! ### Notifier: truncation of the command -/

/-- The cast to `size_t` leaves an `int` that is not negative unchanged. -/
theorem toSizeT_of_nonneg (i : Int) (h0 : 0 ≤ i) (h1 : i ≤ 2147483647) :
    (toSizeT i : Int) = i := by
  unfold toSizeT
  rw [Int.toNat_of_nonneg (Int.emod_nonneg _ (by decide))]
  exact Int.emod_eq_of_lt h0 (by omega)

/-- C6, as the claim states it, fails in a narrow window: on a terminal 8 columns
wide the window is 6 columns wide, its inner width is 2, and the command "abcdef"
is printed as "abcdef...", nine characters long. -/
theorem displayCommand_narrow_window :
    (popupGeometry 24 8).win_width = 6 ∧
      (("abcdef".toList.length : Nat) : Int) > 6 - 4 ∧
      (textAtRow (popupTexts { command := "abcdef".toList, exit_code := 0, completed := true }
          true 24 8) 4).map Drawn.text = some "abcdef...".toList ∧
      displayCommand "abcdef".toList 6 = "abcdef...".toList ∧
      ¬ (((displayCommand "abcdef".toList 6).length : Nat) : Int) ≤ 6 - 4 := by
  decide

/-- C6 (amended): for every command string and every window width `win_width`
(an `int`) whose inner width `win_width - 4` is at least 3, if the command is longer
than the inner width, the rendered text is the first `win_width - 7` characters of
the command followed by "...": it ends with the ellipsis and its length is the
inner width, so does not exceed it. -/
theorem displayCommand_truncates (command : Str) (win_width : Int)
    (hwide : 3 ≤ win_width - 4) (hint : win_width ≤ 2147483647)
    (hlong : (command.length : Int) > win_width - 4) :
    displayCommand command win_width
        = command.take (win_width - 7).toNat ++ "...".toList ∧
      "...".toList <:+ displayCommand command win_width ∧
      ((displayCommand command win_width).length : Int) ≤ win_width - 4 ∧
      ((displayCommand command win_width).length : Int) = win_width - 4 := by
  have h1 : (toSizeT (win_width - 4) : Int) = win_width - 4 :=
    toSizeT_of_nonneg _ (by omega) (by omega)
  have h2 : (toSizeT (win_width - 4 - 3) : Int) = win_width - 4 - 3 :=
    toSizeT_of_nonneg _ (by omega) (by omega)
  have h3 : toSizeT (win_width - 4 - 3) = (win_width - 7).toNat := by omega
  have hcond : command.length > toSizeT (win_width - 4) := by omega
  have heq : displayCommand command win_width
      = command.take (win_width - 7).toNat ++ "...".toList := by
    simp only [displayCommand, substr0, if_pos hcond, h3]
  have hlen : ((displayCommand command win_width).length : Int) = win_width - 4 := by
    rw [heq, List.length_append, List.length_take]
    have h4 : ("...".toList).length = 3 := by decide
    rw [h4]
    omega
  refine ⟨heq, ?_, le_of_eq hlen, hlen⟩
  rw [heq]
  exact List.suffix_append _ _

/-- C6 (amended) at a window 7 columns wide (inner width 3) and at the full
60-column window (inner width 56) with a command of 60 characters. -/
theorem displayCommand_truncates_witness :
    displayCommand "abcdefghijk".toList 7 = "...".toList ∧
      ((displayCommand (List.replicate 60 (Char.ofNat 97)) 60).length : Int) = 56 := by
  refine ⟨?_, ?_⟩
  · rw [(displayCommand_truncates "abcdefghijk".toList 7 (by decide) (by decide)
      (by decide)).1]
    decide
  · exact (displayCommand_truncates (List.replicate 60 (Char.ofNat 97)) 60 (by decide)
      (by decide) (by decide)).2.2.2

/-- The command line of the popup is the truncated command. -/
theorem command_row (state : CommandState) (has_colors : Bool) (max_y max_x : Int) :
    (textAtRow (popupTexts state has_colors max_y max_x) 4).map Drawn.text
      = some (displayCommand state.command (popupGeometry max_y max_x).win_width) := by
  rw [popupTexts_eq]
  simp [textAtRow]

/-! ### Notifier: text positions -/

/-- C8, as the claim states it, fails on a small terminal: with 8 rows and 40
columns the window is 6 rows high and the dismissal hint is printed at row 7 of
it. -/
theorem draws_outside_small_window :
    (popupGeometry 8 40).win_height = 6 ∧
      (textAtRow (popupTexts { command := "make".toList, exit_code := 0, completed := true }
          true 8 40) 7).map Drawn.y = some 7 ∧
      ¬ (0 < (popupGeometry 8 40).win_height ∧ 0 < (popupGeometry 8 40).win_width ∧
          ∀ d ∈ popupTexts { command := "make".toList, exit_code := 0, completed := true }
              true 8 40,
            d.y < (popupGeometry 8 40).win_height ∧ d.x < (popupGeometry 8 40).win_width) := by
  decide

/-- C8 (amended): for every terminal with at least 10 rows and at least 5 columns
the window has positive width and height and every text position the Notifier
draws at (rows 1, 3, 4, 5 and 7, all at column 2) lies inside it: each row is below
`win_height` and column 2 is below `win_width`. -/
theorem draws_inside_window (state : CommandState) (has_colors : Bool) (max_y max_x : Int)
    (hrows : 10 ≤ max_y) (hcols : 5 ≤ max_x) :
    (popupTexts state has_colors max_y max_x).map (fun d => (d.y, d.x))
        = [(1, 2), (3, 2), (4, 2), (5, 2), (7, 2)] ∧
      0 < (popupGeometry max_y max_x).win_height ∧
      0 < (popupGeometry max_y max_x).win_width ∧
      ∀ d ∈ popupTexts state has_colors max_y max_x,
        0 ≤ d.y ∧ d.y < (popupGeometry max_y max_x).win_height ∧
          0 ≤ d.x ∧ d.x < (popupGeometry max_y max_x).win_width := by
  have hh : 8 ≤ (popupGeometry max_y max_x).win_height := by
    show 8 ≤ (if (9 : Int) > max_y - 2 then max_y - 2 else 9)
    split_ifs <;> omega
  have hw : 3 ≤ (popupGeometry max_y max_x).win_width := by
    show 3 ≤ (if (60 : Int) > max_x - 2 then max_x - 2 else 60)
    split_ifs <;> omega
  rw [popupTexts_eq]
  refine ⟨by simp, by omega, by omega, ?_⟩
  intro d hd
  simp only [List.mem_cons, List.mem_singleton, List.not_mem_nil, or_false] at hd
  rcases hd with h | h | h | h | h <;> subst h <;> simp <;> omega

/-- C8 (amended) at the smallest such terminal, 10 rows and 5 columns: the window
is 8 rows high and 3 columns wide. -/
theorem draws_inside_window_witness :
    (popupGeometry 10 5).win_height = 8 ∧ (popupGeometry 10 5).win_width = 3 ∧
      ∀ d ∈ popupTexts { command := "make".toList, exit_code := 0, completed := true }
          true 10 5,
        0 ≤ d.y ∧ d.y < (popupGeometry 10 5).win_height ∧
          0 ≤ d.x ∧ d.x < (popupGeometry 10 5).win_width :=
  ⟨by decide, by decide,
   (draws_inside_window { command := "make".toList, exit_code := 0, completed := true }
      true 10 5 (by decide) (by decide)).2.2.2⟩

/-! ### Launcher -/

end AsyncNotify
